import Mathlib

/-!
Verification of the OPIC automatic grader's assessment pipeline.

The definitions below are a shallow embedding of the Python sources:

* `ScoringService` (src/services/scoring_service.py): grade thresholds,
  per-criterion scoring with fail-soft defaults, per-question score breakdowns,
  batch scoring, and the final grade computation.
* `FeedbackService` (src/services/feedback_service.py): fallback feedback
  templates, feedback post-processing, and the batch feedback contract.
* `ModelFactory` (src/models/ml_models.py): startup loading of the model
  registry and the Whisper transcription result shape.
* `AudioService` (src/services/audio_service.py): the transcription response.

Machine floats are modelled as exact rationals; Python's `round(x, 2)` is
modelled as decimal rounding half-to-even at two places.  Fallible calls
(model predictions, model loads) are modelled by explicit `Except`/outcome
parameters, so that the error-handling paths of the source are ordinary code.
-/

namespace Opic

/-! ### Grade banding (`ScoringService.calculate_final_grade`) -/

/-- Embedding of `ScoringService.grade_thresholds`: the insertion-ordered
dict of `grade ↦ (min_score, max_score)` pairs from the constructor. -/
def grade_thresholds : List (String × ℚ × ℚ) :=
  [("NH", 0, 12), ("IL", 13, 17), ("IM", 18, 22), ("IH", 23, 27), ("AL", 28, 30)]

/-- The `for grade, (min_score, max_score) in self.grade_thresholds.items()`
loop of `calculate_final_grade`: return the first grade whose inclusive range
contains the score, else fall through. -/
def findGrade (t : ℚ) : List (String × ℚ × ℚ) → Option String
  | [] => none
  | (g, lo, hi) :: rest => if lo ≤ t ∧ t ≤ hi then some g else findGrade t rest

/-- Embedding of `ScoringService.calculate_final_grade`: first matching
threshold range wins, and `"NH"` is the default when no range matches. -/
def calculate_final_grade (t : ℚ) : String :=
  (findGrade t grade_thresholds).getD "NH"

/-- Ordinal rank of the five bands, `NH < IL < IM < IH < AL`. -/
def bandRank : String → ℕ
  | "IL" => 1
  | "IM" => 2
  | "IH" => 3
  | "AL" => 4
  | _ => 0

/-- Closed form of `calculate_final_grade` as nested conditionals. -/
theorem calculate_final_grade_eq (t : ℚ) :
    calculate_final_grade t =
      if 0 ≤ t ∧ t ≤ 12 then "NH"
      else if 13 ≤ t ∧ t ≤ 17 then "IL"
      else if 18 ≤ t ∧ t ≤ 22 then "IM"
      else if 23 ≤ t ∧ t ≤ 27 then "IH"
      else if 28 ≤ t ∧ t ≤ 30 then "AL"
      else "NH" := by
  simp only [calculate_final_grade, grade_thresholds, findGrade]
  split_ifs <;> rfl

theorem grade_eq_IL_iff (t : ℚ) :
    calculate_final_grade t = "IL" ↔ 13 ≤ t ∧ t ≤ 17 := by
  rw [calculate_final_grade_eq]
  split_ifs with h1 h2 h3 h4 h5 <;> constructor <;> intro h <;>
    first
      | rfl
      | assumption
      | exact absurd h (by decide)
      | exact absurd h h2
      | (exfalso; obtain ⟨a, b⟩ := h;
         first
           | (obtain ⟨c, d⟩ := h1; linarith)
           | (obtain ⟨c, d⟩ := h3; linarith)
           | (obtain ⟨c, d⟩ := h4; linarith)
           | (obtain ⟨c, d⟩ := h5; linarith))

theorem grade_eq_IM_iff (t : ℚ) :
    calculate_final_grade t = "IM" ↔ 18 ≤ t ∧ t ≤ 22 := by
  rw [calculate_final_grade_eq]
  split_ifs with h1 h2 h3 h4 h5 <;> constructor <;> intro h <;>
    first
      | rfl
      | assumption
      | exact absurd h (by decide)
      | exact absurd h h3
      | (exfalso; obtain ⟨a, b⟩ := h;
         first
           | (obtain ⟨c, d⟩ := h1; linarith)
           | (obtain ⟨c, d⟩ := h2; linarith)
           | (obtain ⟨c, d⟩ := h4; linarith)
           | (obtain ⟨c, d⟩ := h5; linarith))

theorem grade_eq_IH_iff (t : ℚ) :
    calculate_final_grade t = "IH" ↔ 23 ≤ t ∧ t ≤ 27 := by
  rw [calculate_final_grade_eq]
  split_ifs with h1 h2 h3 h4 h5 <;> constructor <;> intro h <;>
    first
      | rfl
      | assumption
      | exact absurd h (by decide)
      | exact absurd h h4
      | (exfalso; obtain ⟨a, b⟩ := h;
         first
           | (obtain ⟨c, d⟩ := h1; linarith)
           | (obtain ⟨c, d⟩ := h2; linarith)
           | (obtain ⟨c, d⟩ := h3; linarith)
           | (obtain ⟨c, d⟩ := h5; linarith))

theorem grade_eq_AL_iff (t : ℚ) :
    calculate_final_grade t = "AL" ↔ 28 ≤ t ∧ t ≤ 30 := by
  rw [calculate_final_grade_eq]
  split_ifs with h1 h2 h3 h4 h5 <;> constructor <;> intro h <;>
    first
      | rfl
      | assumption
      | exact absurd h (by decide)
      | exact absurd h h5
      | (exfalso; obtain ⟨a, b⟩ := h;
         first
           | (obtain ⟨c, d⟩ := h1; linarith)
           | (obtain ⟨c, d⟩ := h2; linarith)
           | (obtain ⟨c, d⟩ := h3; linarith)
           | (obtain ⟨c, d⟩ := h4; linarith))

theorem grade_eq_NH_iff (t : ℚ) :
    calculate_final_grade t = "NH" ↔
      ¬((13 ≤ t ∧ t ≤ 17) ∨ (18 ≤ t ∧ t ≤ 22) ∨
        (23 ≤ t ∧ t ≤ 27) ∨ (28 ≤ t ∧ t ≤ 30)) := by
  rw [calculate_final_grade_eq]
  split_ifs with h1 h2 h3 h4 h5
  · refine ⟨fun _ => ?_, fun _ => rfl⟩
    rintro (⟨a, b⟩ | ⟨a, b⟩ | ⟨a, b⟩ | ⟨a, b⟩) <;> (obtain ⟨c, d⟩ := h1; linarith)
  · exact ⟨fun h => absurd h (by decide), fun h => absurd (Or.inl h2) h⟩
  · exact ⟨fun h => absurd h (by decide), fun h => absurd (Or.inr (Or.inl h3)) h⟩
  · exact ⟨fun h => absurd h (by decide), fun h => absurd (Or.inr (Or.inr (Or.inl h4))) h⟩
  · exact ⟨fun h => absurd h (by decide), fun h => absurd (Or.inr (Or.inr (Or.inr h5))) h⟩
  · refine ⟨fun _ => ?_, fun _ => rfl⟩
    rintro (h | h | h | h)
    exacts [h2 h, h3 h, h4 h, h5 h]

/-- C1 counterexample: the claim says a total of exactly 12 lands in the
Intermediate-Low band, but the code's `"NH": (0, 12)` range is inclusive at
12 and is checked first, so `calculate_final_grade 12 = "NH"`. -/
theorem c1_boundary_counterexample :
    calculate_final_grade 12 = "NH" ∧ ("NH" : String) ≠ "IL" := by
  constructor
  · rw [calculate_final_grade_eq]; norm_num
  · decide

/-- C1 (amended): `calculate_final_grade` uses the inclusive integer-bounded
ranges of `grade_thresholds`, not half-open bands: IL exactly on [13, 17],
IM on [18, 22], IH on [23, 27], AL on [28, 30], and NH everywhere else —
i.e. for t ≤ 12 (including t = 12 and negative scores), for the gap values
in (12,13), (17,18), (22,23), (27,28), and for t > 30. -/
theorem c1_grade_bands (t : ℚ) :
    (calculate_final_grade t = "IL" ↔ 13 ≤ t ∧ t ≤ 17)
    ∧ (calculate_final_grade t = "IM" ↔ 18 ≤ t ∧ t ≤ 22)
    ∧ (calculate_final_grade t = "IH" ↔ 23 ≤ t ∧ t ≤ 27)
    ∧ (calculate_final_grade t = "AL" ↔ 28 ≤ t ∧ t ≤ 30)
    ∧ (calculate_final_grade t = "NH" ↔
        ¬((13 ≤ t ∧ t ≤ 17) ∨ (18 ≤ t ∧ t ≤ 22) ∨
          (23 ≤ t ∧ t ≤ 27) ∨ (28 ≤ t ∧ t ≤ 30))) :=
  ⟨grade_eq_IL_iff t, grade_eq_IM_iff t, grade_eq_IH_iff t,
   grade_eq_AL_iff t, grade_eq_NH_iff t⟩

/-- Witness for C1 (amended) at the concrete score 14, which the amended
bands place in Intermediate-Low. -/
theorem c1_grade_bands_witness : calculate_final_grade 14 = "IL" :=
  (c1_grade_bands 14).1.mpr (by norm_num)

/-- The grade of an integer total, as computed by `calculate_final_grade`. -/
def gradeInt (n : ℤ) : String := calculate_final_grade (n : ℚ)

theorem gradeInt_eq (n : ℤ) :
    gradeInt n =
      if 0 ≤ n ∧ n ≤ 12 then "NH"
      else if 13 ≤ n ∧ n ≤ 17 then "IL"
      else if 18 ≤ n ∧ n ≤ 22 then "IM"
      else if 23 ≤ n ∧ n ≤ 27 then "IH"
      else if 28 ≤ n ∧ n ≤ 30 then "AL"
      else "NH" := by
  rw [gradeInt, calculate_final_grade_eq]
  have e1 : ((0 : ℚ) ≤ (n : ℚ) ∧ (n : ℚ) ≤ 12) ↔ (0 ≤ n ∧ n ≤ 12) := by
    constructor <;> exact fun ⟨a, b⟩ => ⟨by exact_mod_cast a, by exact_mod_cast b⟩
  have e2 : ((13 : ℚ) ≤ (n : ℚ) ∧ (n : ℚ) ≤ 17) ↔ (13 ≤ n ∧ n ≤ 17) := by
    constructor <;> exact fun ⟨a, b⟩ => ⟨by exact_mod_cast a, by exact_mod_cast b⟩
  have e3 : ((18 : ℚ) ≤ (n : ℚ) ∧ (n : ℚ) ≤ 22) ↔ (18 ≤ n ∧ n ≤ 22) := by
    constructor <;> exact fun ⟨a, b⟩ => ⟨by exact_mod_cast a, by exact_mod_cast b⟩
  have e4 : ((23 : ℚ) ≤ (n : ℚ) ∧ (n : ℚ) ≤ 27) ↔ (23 ≤ n ∧ n ≤ 27) := by
    constructor <;> exact fun ⟨a, b⟩ => ⟨by exact_mod_cast a, by exact_mod_cast b⟩
  have e5 : ((28 : ℚ) ≤ (n : ℚ) ∧ (n : ℚ) ≤ 30) ↔ (28 ≤ n ∧ n ≤ 30) := by
    constructor <;> exact fun ⟨a, b⟩ => ⟨by exact_mod_cast a, by exact_mod_cast b⟩
  simp only [e1, e2, e3, e4, e5]

/-- C2 counterexample: monotonicity fails on the real line. The non-integer
score 17.5 sits in the gap between the `"IL"` range (13, 17) and the `"IM"`
range (18, 22), so it falls through every threshold and defaults to `"NH"`,
a strictly lower band than the `"IL"` earned by the smaller score 17. -/
theorem c2_monotonicity_counterexample :
    (17 : ℚ) ≤ 35 / 2
    ∧ calculate_final_grade 17 = "IL"
    ∧ calculate_final_grade (35 / 2) = "NH"
    ∧ bandRank "NH" < bandRank "IL" := by
  refine ⟨by norm_num, ?_, ?_, by decide⟩
  · rw [calculate_final_grade_eq]; norm_num
  · rw [calculate_final_grade_eq]; norm_num

/-- C2 (amended): banding is total — every rational total maps to one of the
five bands — and is monotone on integer totals within the rubric's 0–30
range; it is not monotone on all real totals, because non-integer scores in
the threshold gaps (12,13), (17,18), (22,23), (27,28) fall back to `"NH"`. -/
theorem c2_total_and_monotone_on_int :
    (∀ t : ℚ, calculate_final_grade t = "NH" ∨ calculate_final_grade t = "IL"
      ∨ calculate_final_grade t = "IM" ∨ calculate_final_grade t = "IH"
      ∨ calculate_final_grade t = "AL")
    ∧ (∀ s t : ℤ, 0 ≤ s → s ≤ t → t ≤ 30 →
        bandRank (gradeInt s) ≤ bandRank (gradeInt t)) := by
  constructor
  · intro t
    rw [calculate_final_grade_eq]
    split_ifs <;> simp
  · intro s t h0 hst h30
    rw [gradeInt_eq, gradeInt_eq]
    split_ifs <;> first | decide | omega

/-- Witness for C2 (amended) at concrete scores 5 and 20. -/
theorem c2_total_and_monotone_on_int_witness :
    (calculate_final_grade (5 : ℚ) = "NH" ∨ calculate_final_grade (5 : ℚ) = "IL"
      ∨ calculate_final_grade (5 : ℚ) = "IM" ∨ calculate_final_grade (5 : ℚ) = "IH"
      ∨ calculate_final_grade (5 : ℚ) = "AL")
    ∧ bandRank (gradeInt 5) ≤ bandRank (gradeInt 20) :=
  ⟨c2_total_and_monotone_on_int.1 5,
   c2_total_and_monotone_on_int.2 5 20 (by norm_num) (by norm_num) (by norm_num)⟩

/-! ### Per-question scoring (`ScoringService.score_single_answer`) -/

/-- Round a rational to the nearest integer, ties to even — the rounding mode
of Python's builtin `round`. -/
def roundHalfEven (q : ℚ) : ℤ :=
  if q - ⌊q⌋ < 1 / 2 then ⌊q⌋
  else if 1 / 2 < q - ⌊q⌋ then ⌊q⌋ + 1
  else if Even ⌊q⌋ then ⌊q⌋ else ⌊q⌋ + 1

/-- Python's `round(x, 2)`: round half-to-even at two decimal places. -/
def pyRound2 (q : ℚ) : ℚ := (roundHalfEven (q * 100) : ℚ) / 100

/-- The `max(0.0, min(10.0, score))` clamp applied to every model output. -/
def clamp10 (q : ℚ) : ℚ := max 0 (min 10 q)

/-- Embedding of `ScoringService._score_task_completion`: the model's
prediction either returns a value, which is clamped to [0, 10], or raises, in
which case the handler substitutes the neutral default 5.0. -/
def score_task_completion : Except Unit ℚ → ℚ
  | .ok v => clamp10 v
  | .error _ => 5

/-- Embedding of `ScoringService._score_accuracy` (same fail-soft shape). -/
def score_accuracy : Except Unit ℚ → ℚ
  | .ok v => clamp10 v
  | .error _ => 5

/-- Embedding of `ScoringService._score_appropriateness` (same shape). -/
def score_appropriateness : Except Unit ℚ → ℚ
  | .ok v => clamp10 v
  | .error _ => 5

/-- Embedding of `models.schemas.ScoreBreakdown` (the stored, rounded
fields). -/
structure ScoreBreakdown where
  task_completion : ℚ
  accuracy : ℚ
  appropriateness : ℚ
  total : ℚ
deriving DecidableEq

/-- Embedding of `models.schemas.ScoringResult`. -/
structure ScoringResult where
  question_number : ℕ
  score_breakdown : ScoreBreakdown
deriving DecidableEq

/-- Embedding of `ScoringService.score_single_answer`, parameterised by the
outcome of each criterion's model call: the three criterion scores are
computed (fail-soft), summed into `total`, and each stored field is
`round(·, 2)` of its value. -/
def score_single_answer (tcO accO appO : Except Unit ℚ)
    (question_number : ℕ) : ScoringResult :=
  let task_completion := score_task_completion tcO
  let accuracy := score_accuracy accO
  let appropriateness := score_appropriateness appO
  let total := task_completion + accuracy + appropriateness
  { question_number := question_number
    score_breakdown :=
      { task_completion := pyRound2 task_completion
        accuracy := pyRound2 accuracy
        appropriateness := pyRound2 appropriateness
        total := pyRound2 total } }

theorem roundHalfEven_intCast (n : ℤ) : roundHalfEven (n : ℚ) = n := by
  have hfl : ⌊(n : ℚ)⌋ = n := Int.floor_intCast n
  rw [roundHalfEven, hfl]
  norm_num

/-- A rational that is already an integer multiple of 1/100 is unchanged by
two-place rounding. -/
theorem pyRound2_eq_self (q : ℚ) (z : ℤ) (h : q = (z : ℚ) / 100) :
    pyRound2 q = q := by
  have h100 : q * 100 = (z : ℚ) := by rw [h]; field_simp
  rw [pyRound2, h100, roundHalfEven_intCast, ← h]

/-- C3 counterexample: with all three (clamped) model outputs equal to 0.004,
each stored criterion score rounds to 0.00 but the stored total — rounded
from the unrounded sum 0.012 — is 0.01, so the stored total is not the sum of
the three stored criterion scores. -/
theorem c3_rounding_counterexample :
    ((score_single_answer (.ok (1 / 250)) (.ok (1 / 250)) (.ok (1 / 250))
        1).score_breakdown.total
      = 1 / 100)
    ∧ ((score_single_answer (.ok (1 / 250)) (.ok (1 / 250)) (.ok (1 / 250))
        1).score_breakdown.task_completion
        + (score_single_answer (.ok (1 / 250)) (.ok (1 / 250)) (.ok (1 / 250))
            1).score_breakdown.accuracy
        + (score_single_answer (.ok (1 / 250)) (.ok (1 / 250)) (.ok (1 / 250))
            1).score_breakdown.appropriateness
      = 0)
    ∧ (1 / 100 : ℚ) ≠ 0 := by
  have hc : clamp10 (1 / 250) = 1 / 250 := by
    rw [clamp10]
    norm_num
  have hfl1 : ⌊(2 / 5 : ℚ)⌋ = 0 := by
    apply Int.floor_eq_iff.mpr <;> norm_num
  have hfl2 : ⌊(6 / 5 : ℚ)⌋ = 1 := by
    apply Int.floor_eq_iff.mpr <;> norm_num
  have h1 : pyRound2 (1 / 250) = 0 := by
    have : (1 / 250 : ℚ) * 100 = 2 / 5 := by norm_num
    rw [pyRound2, this, roundHalfEven, hfl1]
    norm_num
  have h3 : pyRound2 (1 / 250 + 1 / 250 + 1 / 250) = 1 / 100 := by
    have : (1 / 250 + 1 / 250 + 1 / 250 : ℚ) * 100 = 6 / 5 := by norm_num
    rw [pyRound2, this, roundHalfEven, hfl2]
    norm_num
  refine ⟨?_, ?_, by norm_num⟩
  · simp only [score_single_answer, score_task_completion, score_accuracy,
      score_appropriateness, hc, h3]
  · simp only [score_single_answer, score_task_completion, score_accuracy,
      score_appropriateness, hc, h1]
    norm_num

/-- C3 (amended): the stored total is the two-place rounding of the exact
sum of the three clamped, unrounded criterion scores — it is never reclamped
to a range — and it coincides with the sum of the three stored (rounded)
criterion scores whenever each clamped score already has at most two decimal
places; in general it may differ from that sum by rounding. -/
theorem c3_total_is_rounded_sum (tcO accO appO : Except Unit ℚ) (q : ℕ) :
    ((score_single_answer tcO accO appO q).score_breakdown.total
      = pyRound2 (score_task_completion tcO + score_accuracy accO
          + score_appropriateness appO))
    ∧ (∀ za zb zc : ℤ,
        score_task_completion tcO = (za : ℚ) / 100 →
        score_accuracy accO = (zb : ℚ) / 100 →
        score_appropriateness appO = (zc : ℚ) / 100 →
        (score_single_answer tcO accO appO q).score_breakdown.total
          = (score_single_answer tcO accO appO q).score_breakdown.task_completion
            + (score_single_answer tcO accO appO q).score_breakdown.accuracy
            + (score_single_answer tcO accO appO q).score_breakdown.appropriateness) := by
  constructor
  · rfl
  · intro za zb zc ha hb hc
    have hsum : score_task_completion tcO + score_accuracy accO
        + score_appropriateness appO = ((za + zb + zc : ℤ) : ℚ) / 100 := by
      rw [ha, hb, hc]
      push_cast
      ring
    show pyRound2 (score_task_completion tcO + score_accuracy accO
        + score_appropriateness appO)
      = pyRound2 (score_task_completion tcO) + pyRound2 (score_accuracy accO)
        + pyRound2 (score_appropriateness appO)
    rw [pyRound2_eq_self _ _ hsum, pyRound2_eq_self _ _ ha,
      pyRound2_eq_self _ _ hb, pyRound2_eq_self _ _ hc, hsum]

/-- Witness for C3 (amended) at concrete two-decimal scores 7, 5 (failure
default), and 2.5. -/
theorem c3_total_is_rounded_sum_witness :
    ((score_single_answer (.ok 7) (.error ()) (.ok (5 / 2))
        3).score_breakdown.total
      = pyRound2 (score_task_completion (.ok 7) + score_accuracy (.error ())
          + score_appropriateness (.ok (5 / 2))))
    ∧ (score_single_answer (.ok 7) (.error ()) (.ok (5 / 2))
        3).score_breakdown.total
      = (score_single_answer (.ok 7) (.error ()) (.ok (5 / 2))
          3).score_breakdown.task_completion
        + (score_single_answer (.ok 7) (.error ()) (.ok (5 / 2))
            3).score_breakdown.accuracy
        + (score_single_answer (.ok 7) (.error ()) (.ok (5 / 2))
            3).score_breakdown.appropriateness :=
  ⟨(c3_total_is_rounded_sum (.ok 7) (.error ()) (.ok (5 / 2)) 3).1,
   (c3_total_is_rounded_sum (.ok 7) (.error ()) (.ok (5 / 2)) 3).2 700 500 250
     (by rw [score_task_completion, clamp10]; norm_num)
     (by rw [score_accuracy]; norm_num)
     (by rw [score_appropriateness, clamp10]; norm_num)⟩

/-- C4: if exactly the accuracy classifier fails, the question still scores:
the stored accuracy is the fixed neutral default 5.0, the task-completion
and appropriateness scores are exactly what they would have been under any
accuracy outcome (the clamped model outputs, untouched by the failure), and
the total is computed with the substituted 5.0. -/
theorem c4_accuracy_failure_isolated (v1 v3 : ℚ) (q : ℕ) (accO : Except Unit ℚ) :
    ((score_single_answer (.ok v1) (.error ()) (.ok v3) q).score_breakdown.accuracy
      = 5)
    ∧ ((score_single_answer (.ok v1) (.error ()) (.ok v3) q).score_breakdown.task_completion
        = (score_single_answer (.ok v1) accO (.ok v3) q).score_breakdown.task_completion)
    ∧ ((score_single_answer (.ok v1) (.error ()) (.ok v3) q).score_breakdown.task_completion
        = pyRound2 (clamp10 v1))
    ∧ ((score_single_answer (.ok v1) (.error ()) (.ok v3) q).score_breakdown.appropriateness
        = (score_single_answer (.ok v1) accO (.ok v3) q).score_breakdown.appropriateness)
    ∧ ((score_single_answer (.ok v1) (.error ()) (.ok v3) q).score_breakdown.appropriateness
        = pyRound2 (clamp10 v3))
    ∧ ((score_single_answer (.ok v1) (.error ()) (.ok v3) q).score_breakdown.total
        = pyRound2 (clamp10 v1 + 5 + clamp10 v3)) := by
  have h5 : pyRound2 (5 : ℚ) = 5 := by
    have : (5 : ℚ) = ((500 : ℤ) : ℚ) / 100 := by norm_num
    rw [pyRound2_eq_self 5 500 this]
  refine ⟨?_, rfl, rfl, rfl, rfl, rfl⟩
  show pyRound2 (score_accuracy (.error ())) = 5
  rw [score_accuracy, h5]

/-! ### Batch scoring (`ScoringService.score_multiple_answers`) -/

/-- One element of the `answers_data` list handed to batch scoring, carrying
the outcome of each criterion's model call for that slot. -/
structure AnswerData where
  tcO : Except Unit ℚ
  accO : Except Unit ℚ
  appO : Except Unit ℚ
  question_number : ℕ

/-- The post-`gather` loop of `score_multiple_answers`: results that are
exceptions are logged and dropped, the rest are kept in order. -/
def filterScoringResults : List (Except Unit ScoringResult) → List ScoringResult
  | [] => []
  | .ok r :: rest => r :: filterScoringResults rest
  | .error _ :: rest => filterScoringResults rest

/-- Embedding of `ScoringService.score_multiple_answers`: one
`score_single_answer` task per input slot, gathered with
`return_exceptions=True`, then filtered.  A slot's task is `Except.ok` of the
slot's result: `score_single_answer` is total, because every failure of the
underlying scoring computation is absorbed inside the per-criterion handlers
(the 5.0 default), so no exception reaches the gather. -/
def score_multiple_answers (answers_data : List AnswerData) : List ScoringResult :=
  filterScoringResults
    (answers_data.map fun a =>
      Except.ok (score_single_answer a.tcO a.accO a.appO a.question_number))

theorem filterScoringResults_map_ok {α : Type} (f : α → ScoringResult)
    (l : List α) :
    filterScoringResults (l.map fun a => Except.ok (f a)) = l.map f := by
  induction l with
  | nil => rfl
  | cons a rest ih => simp [filterScoringResults, ih]

/-- C9: batch scoring returns exactly one entry per input slot, in input
order — a slot whose underlying scoring computation failed (any subset of
its three criterion calls raising) still yields its `score_single_answer`
entry, scored with the neutral defaults, rather than being omitted. -/
theorem c9_one_entry_per_slot (answers_data : List AnswerData) :
    (score_multiple_answers answers_data
      = answers_data.map fun a =>
          score_single_answer a.tcO a.accO a.appO a.question_number)
    ∧ (score_multiple_answers answers_data).length = answers_data.length := by
  have h : score_multiple_answers answers_data
      = answers_data.map fun a =>
          score_single_answer a.tcO a.accO a.appO a.question_number := by
    rw [score_multiple_answers, filterScoringResults_map_ok]
  exact ⟨h, by rw [h, List.length_map]⟩

/-! ### Fallback feedback (`FeedbackService._get_fallback_feedback`) -/

/-- Embedding of `FeedbackService._get_score_level`: the cascaded severity
tier of a total score. -/
def get_score_level (score : ℚ) : String :=
  if score ≥ 24 then "excellent"
  else if score ≥ 18 then "good"
  else if score ≥ 12 then "average"
  else "needs_improvement"

/-- Embedding of `FeedbackService._get_fallback_feedback`: the deterministic
template used when AI generation fails, built by successive appends exactly
as the source builds `base_feedback`. -/
def get_fallback_feedback (scores : ScoreBreakdown) (question_number : ℕ) : String :=
  let score_level := get_score_level scores.total
  let base1 := "질문 " ++ toString question_number ++ "번에 대한 답변 분석:\n\n"
  let base2 := base1 ++
    (if score_level = "excellent" then
      "우수한 답변입니다! 모든 평가 기준에서 높은 점수를 받았습니다.\n"
    else if score_level = "good" then
      "좋은 답변입니다. 몇 가지 부분에서 개선하면 더 좋을 것 같습니다.\n"
    else if score_level = "average" then
      "평균적인 답변입니다. 더 구체적이고 자세한 설명이 필요합니다.\n"
    else
      "답변에 더 많은 노력이 필요합니다. 질문에 더 직접적으로 답해보세요.\n")
  let base3 := base2 ++
    (if scores.task_completion < 6 then "• 질문의 요구사항을 더 완전히 답변해보세요.\n" else "")
  let base4 := base3 ++
    (if scores.accuracy < 6 then "• 문법과 어휘 사용에 더 주의를 기울여보세요.\n" else "")
  base4 ++
    (if scores.appropriateness < 6 then "• 상황에 더 적절한 표현을 사용해보세요.\n" else "")

/-- Severity tier as the claim words it, with explicit half-open bands:
total ≥ 24 is excellent, 18 ≤ total < 24 is good, 12 ≤ total < 18 is
average, total < 12 needs improvement. -/
def severityTierSpec (total : ℚ) : String :=
  if 24 ≤ total then "excellent"
  else if 18 ≤ total ∧ total < 24 then "good"
  else if 12 ≤ total ∧ total < 18 then "average"
  else "needs_improvement"

/-- The template sentence attached to each severity tier. -/
def tierSentence : String → String
  | "excellent" => "우수한 답변입니다! 모든 평가 기준에서 높은 점수를 받았습니다.\n"
  | "good" => "좋은 답변입니다. 몇 가지 부분에서 개선하면 더 좋을 것 같습니다.\n"
  | "average" => "평균적인 답변입니다. 더 구체적이고 자세한 설명이 필요합니다.\n"
  | _ => "답변에 더 많은 노력이 필요합니다. 질문에 더 직접적으로 답해보세요.\n"

/-- The fallback template as the claim describes it: a pure function of
`(scores, question_number)` — header, tier sentence chosen from the total by
the half-open thresholds, then one remark per criterion strictly below 6. -/
def fallbackFeedbackSpec (scores : ScoreBreakdown) (question_number : ℕ) : String :=
  "질문 " ++ toString question_number ++ "번에 대한 답변 분석:\n\n"
  ++ tierSentence (severityTierSpec scores.total)
  ++ (if scores.task_completion < 6 then "• 질문의 요구사항을 더 완전히 답변해보세요.\n" else "")
  ++ (if scores.accuracy < 6 then "• 문법과 어휘 사용에 더 주의를 기울여보세요.\n" else "")
  ++ (if scores.appropriateness < 6 then "• 상황에 더 적절한 표현을 사용해보세요.\n" else "")

theorem get_score_level_eq_spec (t : ℚ) :
    get_score_level t = severityTierSpec t := by
  rcases le_or_lt 24 t with h24 | h24
  · simp [get_score_level, severityTierSpec, h24]
  · rcases le_or_lt 18 t with h18 | h18
    · simp [get_score_level, severityTierSpec, h18, h24, not_le.mpr h24]
    · rcases le_or_lt 12 t with h12 | h12
      · simp [get_score_level, severityTierSpec, h12, h18, h24,
          not_le.mpr h24, not_le.mpr h18]
      · simp [get_score_level, severityTierSpec,
          not_le.mpr h24, not_le.mpr h18, not_le.mpr h12]

theorem severityTierSpec_cases (t : ℚ) :
    severityTierSpec t = "excellent" ∨ severityTierSpec t = "good"
    ∨ severityTierSpec t = "average" ∨ severityTierSpec t = "needs_improvement" := by
  rw [severityTierSpec]
  split_ifs <;> simp

/-- C6: the fallback feedback equals the deterministic spec template — tier
chosen from the total by the half-open thresholds (≥24 excellent, [18,24)
good, [12,18) average, <12 needs-improvement), plus one remark per criterion
below 6 — and the code's cascaded tier function agrees with the half-open
characterization.  Both sides are pure functions of `(scores,
question_number)`: no model call occurs. -/
theorem c6_fallback_is_spec_template (scores : ScoreBreakdown) (question_number : ℕ) :
    get_fallback_feedback scores question_number
      = fallbackFeedbackSpec scores question_number
    ∧ get_score_level scores.total = severityTierSpec scores.total := by
  refine ⟨?_, get_score_level_eq_spec scores.total⟩
  rw [get_fallback_feedback, fallbackFeedbackSpec, get_score_level_eq_spec]
  rcases severityTierSpec_cases scores.total with h | h | h | h <;>
    rw [h] <;> simp [tierSentence, String.append_assoc]

/-! ### Batch feedback (`FeedbackService.generate_batch_feedback`) -/

/-- The per-item failure placeholder `f"피드백 생성에 실패했습니다. (질문 {i+1})"`
inserted for an item whose feedback task surfaced an exception (`i` is the
0-based position in the batch). -/
def feedbackFailureText (i : ℕ) : String :=
  "피드백 생성에 실패했습니다. (질문 " ++ toString (i + 1) ++ ")"

/-- The text placed at position `i` of the batch output for item outcome `e`:
the item's own (real or fallback) feedback on success, the indexed
placeholder on failure. -/
def renderFeedback (i : ℕ) (e : Except Unit String) : String :=
  match e with
  | .error _ => feedbackFailureText i
  | .ok s => s

/-- The enumerated post-`gather` loop of `generate_batch_feedback`, appending
one output string per outcome starting at index `i`. -/
def handleFeedbacks : ℕ → List (Except Unit String) → List String
  | _, [] => []
  | i, e :: rest => renderFeedback i e :: handleFeedbacks (i + 1) rest

/-- Embedding of `FeedbackService.generate_batch_feedback`, parameterised by
the per-item task outcomes collected by `asyncio.gather(...,
return_exceptions=True)` in request order: exceptions are replaced by the
indexed placeholder, everything else is passed through in order. -/
def generate_batch_feedback (outcomes : List (Except Unit String)) : List String :=
  handleFeedbacks 0 outcomes

theorem handleFeedbacks_length (i : ℕ) (l : List (Except Unit String)) :
    (handleFeedbacks i l).length = l.length := by
  induction l generalizing i with
  | nil => rfl
  | cons e rest ih => simp [handleFeedbacks, ih]

theorem handleFeedbacks_getElem (k : ℕ) (l : List (Except Unit String))
    (i : ℕ) (e : Except Unit String) (h : l[i]? = some e) :
    (handleFeedbacks k l)[i]? = some (renderFeedback (k + i) e) := by
  induction l generalizing k i with
  | nil => simp at h
  | cons x rest ih =>
    cases i with
    | zero =>
      simp only [List.getElem?_cons_zero, Option.some.injEq] at h
      simp [handleFeedbacks, h]
    | succ j =>
      simp only [List.getElem?_cons_succ] at h
      have := ih (k + 1) j h
      simpa [handleFeedbacks, Nat.add_assoc, Nat.add_comm 1 j] using this

/-- C5: the batch feedback output has exactly one entry per request, and
position `i` of the output is request `i`'s own feedback when its task
succeeded, or the per-item failure placeholder for index `i` when its task
failed — failures are isolated to their own position. -/
theorem c5_batch_feedback_positional (outcomes : List (Except Unit String)) :
    (generate_batch_feedback outcomes).length = outcomes.length
    ∧ ∀ i : ℕ, ∀ e : Except Unit String, outcomes[i]? = some e →
        (generate_batch_feedback outcomes)[i]? = some (renderFeedback i e) := by
  constructor
  · exact handleFeedbacks_length 0 outcomes
  · intro i e h
    have := handleFeedbacks_getElem 0 outcomes i e h
    simpa using this

/-- Witness for C5 at a concrete three-item batch whose middle item failed:
the output pairs position 0 with the first item's text, position 1 with the
placeholder naming question 2, and position 2 with the third item's text. -/
theorem c5_batch_feedback_positional_witness :
    (generate_batch_feedback [.ok "good answer", .error (), .ok "great answer"]).length = 3
    ∧ (generate_batch_feedback
        [.ok "good answer", .error (), .ok "great answer"])[1]?
      = some (renderFeedback 1 (.error ())) :=
  ⟨(c5_batch_feedback_positional [.ok "good answer", .error (), .ok "great answer"]).1,
   (c5_batch_feedback_positional [.ok "good answer", .error (), .ok "great answer"]).2
     1 (.error ()) (by rfl)⟩

/-! ### Feedback post-processing (`FeedbackService._clean_feedback`) -/

/-- Whitespace characters stripped by Python's `str.strip()` (the ASCII
whitespace set). -/
def isPySpace (c : Char) : Bool :=
  c == ' ' || c == '\t' || c == '\n' || c == '\r' || c == '\x0b' || c == '\x0c'

/-- Python `str.lstrip()` on a character list. -/
def lstrip (l : List Char) : List Char := l.dropWhile isPySpace

/-- Python `str.rstrip()` on a character list. -/
def rstrip (l : List Char) : List Char := (l.reverse.dropWhile isPySpace).reverse

/-- Python `str.strip()`: leading and trailing whitespace removed. -/
def pyStrip (l : List Char) : List Char := lstrip (rstrip l)

/-- Python `str.split('\n')` on a character list. -/
def splitOnNl : List Char → List (List Char)
  | [] => [[]]
  | c :: rest =>
    match splitOnNl rest with
    | [] => [[]]
    | l :: ls => if c = '\n' then [] :: l :: ls else (c :: l) :: ls

/-- The dedup loop of `_clean_feedback`: strip each line, keep it only if it
is nonempty and not already kept. -/
def uniqueLinesAux (acc : List (List Char)) : List (List Char) → List (List Char)
  | [] => acc
  | l :: ls =>
    if pyStrip l ≠ [] ∧ pyStrip l ∉ acc then uniqueLinesAux (acc ++ [pyStrip l]) ls
    else uniqueLinesAux acc ls

/-- Python `'\n'.join(lines)` on character lists. -/
def joinLines : List (List Char) → List Char
  | [] => []
  | [l] => l
  | l :: l' :: ls => l ++ '\n' :: joinLines (l' :: ls)

/-- The `"..."` marker appended when the cleaned feedback is truncated. -/
def ellipsisMarker : List Char := ['.', '.', '.']

/-- Embedding of `FeedbackService._clean_feedback`: strip the raw feedback,
drop empty and repeated (stripped) lines, rejoin with newlines, and if the
result exceeds 1000 characters keep the first 1000 and append `"..."`. -/
def clean_feedback (raw : List Char) : List Char :=
  let feedback := pyStrip raw
  let cleaned := joinLines (uniqueLinesAux [] (splitOnNl feedback))
  if 1000 < cleaned.length then cleaned.take 1000 ++ ellipsisMarker else cleaned

/-- A kept line: nonempty, with non-whitespace first and last characters. -/
def GoodLine (l : List Char) : Prop :=
  l ≠ []
  ∧ (∀ c, l.head? = some c → isPySpace c = false)
  ∧ (∀ c, l.getLast? = some c → isPySpace c = false)

theorem dropWhile_head?_false (p : Char → Bool) (l : List Char) (c : Char)
    (h : (l.dropWhile p).head? = some c) : p c = false := by
  induction l with
  | nil => simp [List.dropWhile_nil] at h
  | cons a rest ih =>
    rw [List.dropWhile_cons] at h
    by_cases hpa : p a = true
    · rw [if_pos hpa] at h
      exact ih h
    · rw [if_neg hpa] at h
      simp only [List.head?_cons, Option.some.injEq] at h
      subst h
      exact Bool.eq_false_iff.mpr hpa

theorem head?_append_left (l l' : List Char) (h : l ≠ []) :
    (l ++ l').head? = l.head? := by
  cases l with
  | nil => exact absurd rfl h
  | cons a t => rfl

theorem head?_take_of_ne_zero (n : ℕ) (h : n ≠ 0) (l : List Char) :
    (l.take n).head? = l.head? := by
  cases n with
  | zero => exact absurd rfl h
  | succ m =>
    cases l with
    | nil => rfl
    | cons a t => rfl

theorem lstrip_getLast?_of_ne_nil (l : List Char) (h : lstrip l ≠ []) :
    (lstrip l).getLast? = l.getLast? := by
  conv_rhs => rw [← List.takeWhile_append_dropWhile isPySpace l]
  exact (List.getLast?_append_of_ne_nil _ h).symm

theorem rstrip_getLast?_false (l : List Char) (c : Char)
    (h : (rstrip l).getLast? = some c) : isPySpace c = false := by
  rw [rstrip, List.getLast?_reverse] at h
  exact dropWhile_head?_false _ _ _ h

theorem pyStrip_good (l : List Char) (h : pyStrip l ≠ []) : GoodLine (pyStrip l) := by
  refine ⟨h, ?_, ?_⟩
  · intro c hc
    rw [pyStrip, lstrip] at hc
    exact dropWhile_head?_false _ _ _ hc
  · intro c hc
    rw [pyStrip] at hc h
    rw [lstrip_getLast?_of_ne_nil _ h] at hc
    exact rstrip_getLast?_false _ _ hc

theorem uniqueLinesAux_good (ls : List (List Char)) :
    ∀ acc, (∀ x ∈ acc, GoodLine x) → ∀ x ∈ uniqueLinesAux acc ls, GoodLine x := by
  induction ls with
  | nil =>
    intro acc hacc x hx
    rw [uniqueLinesAux] at hx
    exact hacc x hx
  | cons l rest ih =>
    intro acc hacc x hx
    rw [uniqueLinesAux] at hx
    by_cases hc : pyStrip l ≠ [] ∧ pyStrip l ∉ acc
    · rw [if_pos hc] at hx
      refine ih _ ?_ x hx
      intro y hy
      rcases List.mem_append.mp hy with hy | hy
      · exact hacc y hy
      · rw [List.mem_singleton] at hy
        subst hy
        exact pyStrip_good _ hc.1
    · rw [if_neg hc] at hx
      exact ih _ hacc x hx

theorem uniqueLinesAux_nodup (ls : List (List Char)) :
    ∀ acc : List (List Char), acc.Nodup → (uniqueLinesAux acc ls).Nodup := by
  induction ls with
  | nil =>
    intro acc h
    rw [uniqueLinesAux]
    exact h
  | cons l rest ih =>
    intro acc h
    rw [uniqueLinesAux]
    by_cases hc : pyStrip l ≠ [] ∧ pyStrip l ∉ acc
    · rw [if_pos hc]
      refine ih _ ?_
      simp [List.nodup_append, h, hc.2]
    · rw [if_neg hc]
      exact ih _ h

theorem joinLines_ne_nil (l : List Char) (ls : List (List Char)) (hl : l ≠ []) :
    joinLines (l :: ls) ≠ [] := by
  cases ls with
  | nil => exact hl
  | cons l' ls' => simp [joinLines]

theorem joinLines_head?_good (c : Char) :
    ∀ ls : List (List Char), (∀ x ∈ ls, GoodLine x) →
      (joinLines ls).head? = some c → isPySpace c = false := by
  intro ls
  induction ls with
  | nil =>
    intro _ h
    simp [joinLines] at h
  | cons l rest ih =>
    intro hall h
    cases rest with
    | nil => exact (hall l (by simp)).2.1 c h
    | cons l2 rest2 =>
      rw [show joinLines (l :: l2 :: rest2) = l ++ '\n' :: joinLines (l2 :: rest2) from rfl,
        head?_append_left _ _ (hall l (by simp)).1] at h
      exact (hall l (by simp)).2.1 c h

theorem joinLines_getLast?_good (c : Char) :
    ∀ ls : List (List Char), (∀ x ∈ ls, GoodLine x) →
      (joinLines ls).getLast? = some c → isPySpace c = false := by
  intro ls
  induction ls with
  | nil =>
    intro _ h
    simp [joinLines] at h
  | cons l rest ih =>
    intro hall h
    cases rest with
    | nil => exact (hall l (by simp)).2.2 c h
    | cons l2 rest2 =>
      have h2 : joinLines (l2 :: rest2) ≠ [] :=
        joinLines_ne_nil l2 rest2 (hall l2 (by simp)).1
      rw [show joinLines (l :: l2 :: rest2) = l ++ '\n' :: joinLines (l2 :: rest2) from rfl,
        List.getLast?_append_of_ne_nil l (by simp)] at h
      obtain ⟨y, ys, hys⟩ := List.exists_cons_of_ne_nil h2
      rw [hys, List.getLast?_cons_cons, ← hys] at h
      exact ih (fun x hx => hall x (by simp [hx])) h

set_option maxRecDepth 100000 in
/-- C7 counterexample: a single 1001-character line needs truncation, and the
code then returns the first 1000 characters *plus* the three-character
ellipsis, so the output length is 1003 — it exceeds the claimed 1000-unit
maximum. -/
theorem c7_length_counterexample :
    (clean_feedback (List.replicate 1001 'a')).length = 1003 ∧ 1000 < 1003 := by
  constructor
  · decide
  · norm_num

/-- C7 (amended): the post-processed output has no leading or trailing
whitespace, its kept (stripped, deduplicated) lines are pairwise distinct,
and its length is bounded by 1003 — the 1000-character cap plus the
three-character ellipsis marker appended exactly when the deduplicated text
exceeds 1000 characters. -/
theorem c7_clean_feedback_bounded (raw : List Char) :
    (clean_feedback raw).length ≤ 1003
    ∧ (∀ c, (clean_feedback raw).head? = some c → isPySpace c = false)
    ∧ (∀ c, (clean_feedback raw).getLast? = some c → isPySpace c = false)
    ∧ (uniqueLinesAux [] (splitOnNl (pyStrip raw))).Nodup
    ∧ (1000 < (joinLines (uniqueLinesAux [] (splitOnNl (pyStrip raw)))).length →
        clean_feedback raw
          = (joinLines (uniqueLinesAux [] (splitOnNl (pyStrip raw)))).take 1000
            ++ ellipsisMarker) := by
  have hgood : ∀ x ∈ uniqueLinesAux [] (splitOnNl (pyStrip raw)), GoodLine x :=
    uniqueLinesAux_good _ [] (by simp)
  have hnodup : (uniqueLinesAux [] (splitOnNl (pyStrip raw))).Nodup :=
    uniqueLinesAux_nodup _ [] (by simp)
  set cl := joinLines (uniqueLinesAux [] (splitOnNl (pyStrip raw))) with hcl
  have hhead : ∀ c, cl.head? = some c → isPySpace c = false :=
    fun c hc => joinLines_head?_good c _ hgood hc
  have hlast : ∀ c, cl.getLast? = some c → isPySpace c = false :=
    fun c hc => joinLines_getLast?_good c _ hgood hc
  have hcf : clean_feedback raw
      = if 1000 < cl.length then cl.take 1000 ++ ellipsisMarker else cl := rfl
  by_cases hlen : 1000 < cl.length
  · rw [hcf, if_pos hlen]
    refine ⟨?_, ?_, ?_, hnodup, fun _ => rfl⟩
    · rw [List.length_append, List.length_take]
      have h3 : ellipsisMarker.length = 3 := rfl
      omega
    · intro c hc
      have htk : cl.take 1000 ≠ [] := by
        intro h0
        have := congrArg List.length h0
        rw [List.length_take, List.length_nil] at this
        omega
      rw [head?_append_left _ _ htk, head?_take_of_ne_zero 1000 (by norm_num)] at hc
      exact hhead c hc
    · intro c hc
      rw [List.getLast?_append_of_ne_nil _ (by simp [ellipsisMarker])] at hc
      have : c = '.' := by
        rw [show ellipsisMarker.getLast? = some '.' from rfl] at hc
        exact (Option.some.inj hc).symm
      subst this
      decide
  · rw [hcf, if_neg hlen]
    exact ⟨by omega, hhead, hlast, hnodup, fun hcontra => absurd hcontra hlen⟩

/-- Witness for C7 (amended) at the one-character input `"a"`. -/
theorem c7_clean_feedback_bounded_witness :
    (clean_feedback ['a']).length ≤ 1003 ∧ isPySpace 'a' = false :=
  ⟨(c7_clean_feedback_bounded ['a']).1,
   (c7_clean_feedback_bounded ['a']).2.1 'a' (by decide)⟩

/-! ### Startup model loading (`ModelFactory.load_all_models`) -/

/-- The five model roles loaded at startup. -/
inductive ModelRole
  | whisper
  | robertaTaskCompletion
  | robertaAccuracy
  | robertaAppropriateness
  | llama
deriving DecidableEq

/-- The order in which `load_all_models` loads the roles. -/
def loadOrder : List ModelRole :=
  [.whisper, .robertaTaskCompletion, .robertaAccuracy, .robertaAppropriateness, .llama]

/-- Outcome of one manager's `load_model()` call: the artifact loads, or the
load raises, or — for the RoBERTa managers only — the model path does not
exist, in which case the source logs a warning and returns without loading
and without raising. -/
inductive LoadOutcome
  | success
  | failure
  | missingPath
deriving DecidableEq

/-- Mark a role's handle as loaded in the registry state (`is_loaded()` per
role). -/
def setLoaded (st : ModelRole → Bool) (r : ModelRole) : ModelRole → Bool :=
  fun r' => if r' = r then true else st r'

/-- One `load_model()` step: on success the handle becomes loaded; on a raise
the exception propagates (carrying the registry state unchanged); on a
missing RoBERTa path the call returns normally with the handle left
unloaded. -/
def load_model (o : LoadOutcome) (r : ModelRole) (st : ModelRole → Bool) :
    Except (ModelRole → Bool) (ModelRole → Bool) :=
  match o with
  | .success => .ok (setLoaded st r)
  | .failure => .error st
  | .missingPath => .ok st

/-- The sequential body of `load_all_models` over a list of roles: each load
runs in order, and the first raise aborts the remainder, propagating the
state reached so far. -/
def loadModelsFrom (outcome : ModelRole → LoadOutcome) :
    List ModelRole → (ModelRole → Bool) → Except (ModelRole → Bool) (ModelRole → Bool)
  | [], st => .ok st
  | r :: rs, st =>
    match load_model (outcome r) r st with
    | .ok st' => loadModelsFrom outcome rs st'
    | .error st' => .error st'

/-- Embedding of `ModelFactory.load_all_models`: load whisper, the three
RoBERTa criteria models, then LLaMA, in that order. -/
def load_all_models (outcome : ModelRole → LoadOutcome) (st : ModelRole → Bool) :
    Except (ModelRole → Bool) (ModelRole → Bool) :=
  loadModelsFrom outcome loadOrder st

/-- Whether a load run completed without an exception. -/
def loadCompleted (e : Except (ModelRole → Bool) (ModelRole → Bool)) : Bool :=
  match e with
  | .ok _ => true
  | .error _ => false

/-- The registry state after a load run, whether or not it raised (the
singleton handles persist either way). -/
def loadState (e : Except (ModelRole → Bool) (ModelRole → Bool)) : ModelRole → Bool :=
  match e with
  | .ok st => st
  | .error st => st

/-- All-false initial registry state: no handle loaded yet. -/
def noneLoaded : ModelRole → Bool := fun _ => false

/-- The load outcomes in which the accuracy RoBERTa model's path is missing
and every other artifact loads fine. -/
def outcomeAccuracyPathMissing : ModelRole → LoadOutcome :=
  fun r => if r = .robertaAccuracy then .missingPath else .success

/-- C8 counterexample: when the accuracy RoBERTa model's path does not
exist, its artifact fails to initialize (its handle is still unloaded after
startup), yet `load_all_models` completes without raising — no error
propagates and startup does not abort, contradicting the claim that every
initialization failure is propagated. -/
theorem c8_missing_path_counterexample :
    loadCompleted (load_all_models outcomeAccuracyPathMissing noneLoaded) = true
    ∧ loadState (load_all_models outcomeAccuracyPathMissing noneLoaded)
        ModelRole.robertaAccuracy = false := by
  constructor
  · rfl
  · rfl

theorem loadModelsFrom_error_after (outcome : ModelRole → LoadOutcome)
    (pre : List ModelRole) :
    ∀ st0 : ModelRole → Bool, ∀ rf : ModelRole, ∀ post : List ModelRole,
      (∀ r ∈ pre, outcome r ≠ .failure) → outcome rf = .failure →
      ∃ st, loadModelsFrom outcome (pre ++ rf :: post) st0 = .error st
        ∧ (∀ r ∈ pre, outcome r = .success → st r = true)
        ∧ (∀ r, st0 r = true → st r = true) := by
  induction pre with
  | nil =>
    intro st0 rf post _ hfail
    refine ⟨st0, ?_, by simp, fun _ h => h⟩
    simp only [List.nil_append, loadModelsFrom, load_model, hfail]
  | cons p ps ih =>
    intro st0 rf post hpre hfail
    cases hp : outcome p with
    | failure => exact absurd hp (hpre p (by simp))
    | success =>
      obtain ⟨st, hrun, hps, hmono⟩ :=
        ih (setLoaded st0 p) rf post (fun r hr => hpre r (by simp [hr])) hfail
      refine ⟨st, ?_, ?_, ?_⟩
      · simp only [List.cons_append, loadModelsFrom, load_model, hp]
        exact hrun
      · intro r hr hsucc
        rcases List.mem_cons.mp hr with hr | hr
        · subst hr
          exact hmono r (by simp [setLoaded])
        · exact hps r hr hsucc
      · intro r hr
        exact hmono r (by simp [setLoaded, hr])
    | missingPath =>
      obtain ⟨st, hrun, hps, hmono⟩ :=
        ih st0 rf post (fun r hr => hpre r (by simp [hr])) hfail
      refine ⟨st, ?_, ?_, hmono⟩
      · simp only [List.cons_append, loadModelsFrom, load_model, hp]
        exact hrun
      · intro r hr hsucc
        rcases List.mem_cons.mp hr with hr | hr
        · subst hr
          rw [hp] at hsucc
          exact absurd hsucc (by decide)
        · exact hps r hr hsucc

/-- C8 (amended): whenever a role's `load_model()` raises during
`load_all_models` — no earlier role having raised (each earlier load either
succeeded or was the warning-only skip of a missing RoBERTa path) — the
exception propagates to the caller (startup aborts) and every handle whose
artifact was loaded before the failure remains loaded, with no rollback of
previously loaded or pre-existing handles.  (As the counterexample shows, a
RoBERTa model whose path is missing does not raise: it is skipped with a
warning, its handle left unloaded, and no error propagates for it.) -/
theorem c8_failure_propagates_no_rollback (outcome : ModelRole → LoadOutcome)
    (st0 : ModelRole → Bool) (pre post : List ModelRole) (rf : ModelRole)
    (horder : loadOrder = pre ++ rf :: post)
    (hpre : ∀ r ∈ pre, outcome r ≠ .failure)
    (hfail : outcome rf = .failure) :
    ∃ st, load_all_models outcome st0 = .error st
      ∧ (∀ r ∈ pre, outcome r = .success → st r = true)
      ∧ (∀ r, st0 r = true → st r = true) := by
  rw [load_all_models, horder]
  exact loadModelsFrom_error_after outcome pre st0 rf post hpre hfail

/-- The load outcomes in which the Task_Completion RoBERTa path is missing
(warning-only skip), the LLaMA load raises, and everything else succeeds. -/
def outcomeMixedLlamaFails : ModelRole → LoadOutcome :=
  fun r =>
    if r = .llama then .failure
    else if r = .robertaTaskCompletion then .missingPath
    else .success

/-- Witness for C8 (amended) on a mixed run: the Task_Completion path is
missing (skipped with a warning), every other load before LLaMA succeeds,
and the LLaMA load raises — `load_all_models` still propagates the error,
and every handle loaded before the failure (Whisper and the two loaded
RoBERTa handles) remains loaded in the propagated state. -/
theorem c8_failure_propagates_no_rollback_witness :
    ∃ st, load_all_models outcomeMixedLlamaFails noneLoaded = .error st
      ∧ (∀ r ∈ [ModelRole.whisper, ModelRole.robertaTaskCompletion,
           ModelRole.robertaAccuracy, ModelRole.robertaAppropriateness],
           outcomeMixedLlamaFails r = .success → st r = true)
      ∧ (∀ r, noneLoaded r = true → st r = true) :=
  c8_failure_propagates_no_rollback outcomeMixedLlamaFails noneLoaded
    [.whisper, .robertaTaskCompletion, .robertaAccuracy, .robertaAppropriateness]
    [] .llama (by rfl) (by decide) (by rfl)

/-! ### Whisper transcription confidence (`WhisperModelManager.predict`,
`AudioService.process_audio_upload`) -/

/-- A Python value as it flows through the transcription path: a string, a
number, `None`, or a bound method object. -/
inductive PyVal
  | pstr (s : String)
  | pnum (q : ℚ)
  | pnone
  | pmethod (name : String)
deriving DecidableEq

/-- Item lookup in a Python dict modelled as an association list
(`d[k]` / `d.get(k)` semantics feed off this). -/
def dictLookup : List (String × PyVal) → String → Option PyVal
  | [], _ => none
  | (k, v) :: rest, key => if k = key then some v else dictLookup rest key

/-- The attribute names a `dict` instance exposes (its methods).  Mapping
keys are *not* attributes of the dict object. -/
def dictAttrNames : List String :=
  ["clear", "copy", "fromkeys", "get", "items", "keys", "pop", "popitem",
   "setdefault", "update", "values"]

/-- Python's `getattr(d, name, default)` on a dict instance: a method name
yields the bound method, any other name — including every mapping key —
yields the default. -/
def dictGetattrOrDefault (name : String) (default : PyVal) : PyVal :=
  if name ∈ dictAttrNames then .pmethod name else default

/-- Embedding of `WhisperModelManager.predict`: the ASR pipeline returns a
dict; `result["text"]` raises `KeyError` if absent, and the confidence field
is populated from `getattr(result, "confidence", None)` — an attribute
lookup on the dict object, not an item lookup. -/
def whisper_predict (result : List (String × PyVal)) :
    Except Unit (List (String × PyVal)) :=
  match dictLookup result "text" with
  | none => .error ()
  | some t =>
      .ok [("transcription", t),
           ("confidence", dictGetattrOrDefault "confidence" .pnone)]

/-- Embedding of `models.schemas.TranscriptionResponse` as built by
`process_audio_upload`. -/
structure TranscriptionResponse where
  question_number : ℕ
  transcription : PyVal
  confidence : PyVal
deriving DecidableEq

/-- Embedding of `AudioService.process_audio_upload` (the transcription part,
parameterised by the pipeline's result dict): build the response from
`transcription_result["transcription"]` and
`transcription_result.get("confidence")`. -/
def process_audio_upload (question_number : ℕ)
    (pipelineResult : List (String × PyVal)) : Except Unit TranscriptionResponse :=
  match whisper_predict pipelineResult with
  | .error e => .error e
  | .ok tr =>
      match dictLookup tr "transcription" with
      | none => .error ()
      | some t =>
          .ok { question_number := question_number
                transcription := t
                confidence := (dictLookup tr "confidence").getD .pnone }

/-- C10: for every pipeline result dict — even one carrying a numeric
`"confidence"` item — a successful `whisper_predict` stores `None` in its
`"confidence"` slot, because `getattr` on a dict never sees mapping keys;
hence every successful `process_audio_upload` yields a response whose
confidence is `None`. -/
theorem c10_confidence_always_none (d : List (String × PyVal)) (q : ℕ) :
    (∀ out, whisper_predict d = .ok out → dictLookup out "confidence" = some .pnone)
    ∧ (∀ r, process_audio_upload q d = .ok r → r.confidence = .pnone) := by
  have hga : dictGetattrOrDefault "confidence" .pnone = .pnone := by
    rw [dictGetattrOrDefault, if_neg]
    decide
  have hfirst : ∀ out, whisper_predict d = .ok out →
      dictLookup out "confidence" = some .pnone := by
    intro out hout
    rw [whisper_predict] at hout
    split at hout
    · exact absurd hout (by simp)
    · simp only [Except.ok.injEq] at hout
      subst hout
      simp [dictLookup, hga]
  refine ⟨hfirst, ?_⟩
  intro r hr
  rw [process_audio_upload] at hr
  split at hr
  · exact absurd hr (by simp)
  · rename_i tr heq
    split at hr
    · exact absurd hr (by simp)
    · simp only [Except.ok.injEq] at hr
      subst hr
      show (dictLookup tr "confidence").getD .pnone = .pnone
      rw [hfirst tr heq]
      rfl

/-- The concrete pipeline result used as the C10 witness: the underlying
pipeline even reports a numeric confidence item, which the attribute lookup
never sees. -/
def pipelineResultWithConfidence : List (String × PyVal) :=
  [("text", .pstr "hello there"), ("confidence", .pnum (93 / 100))]

/-- Witness for C10 at a concrete pipeline result that carries a numeric
`"confidence"` item: the stored confidence is still `None`. -/
theorem c10_confidence_always_none_witness :
    process_audio_upload 1 pipelineResultWithConfidence
      = .ok { question_number := 1, transcription := .pstr "hello there",
              confidence := .pnone }
    ∧ ({ question_number := 1, transcription := .pstr "hello there",
         confidence := .pnone } : TranscriptionResponse).confidence = .pnone :=
  ⟨by rfl,
   (c10_confidence_always_none pipelineResultWithConfidence 1).2 _ (by rfl)⟩

end Opic
